import Mathlib

/-!
Verification of the publications-page generator
(src/scripts/generate_publications.py).

The script reads a categorization file (bib-entries.sty directives) and a
BibTeX bibliography, filters entries to year 2022 or later, groups them by
category, and renders a Quarto markdown page.

This file gives a shallow embedding of that script:
  - Python strings are modelled as Lean strings (sequences of characters);
    the Python string methods used by the script (strip, lower, split,
    title) are re-implemented below under py* names, restricted to the
    ASCII inputs the script processes.
  - Python dicts are modelled as insertion-ordered association lists
    (dictInsert), matching CPython semantics: assignment to an existing
    key overwrites the value in place, a new key is appended at the end.
  - Python sets are modelled as duplicate-free lists; the script only ever
    tests membership on them, never iterates them, so list order is
    irrelevant to the observable behaviour.
  - The regular-expression scans of the fallback BibTeX parser are
    re-implemented as explicit character scanners; each scanner's doc
    comment states the regex it models and the scan discipline
    (re.finditer tries every position left to right, emits non-overlapping
    matches, and resumes after each match).  Scanners that consume a
    variable amount of input take a fuel argument; fuel equal to the
    length of the scanned text is always sufficient because every step
    consumes at least one character.
-/

namespace PubGen

/-- The opening-brace character (written via its code point). -/
def lbrace : Char := '\x7b'

/-- The closing-brace character (written via its code point). -/
def rbrace : Char := '\x7d'

/-- Python str.strip() whitespace set: space, tab, newline, carriage
return, vertical tab, form feed (ASCII). -/
def isPySpace (c : Char) : Bool :=
  c = ' ' || c = '\t' || c = '\n' || c = '\r' || c = '\x0b' || c = '\x0c'

/-- Python str.strip(): remove leading and trailing whitespace. -/
def pyStrip (s : String) : String :=
  String.mk (((s.data.dropWhile isPySpace).reverse.dropWhile isPySpace).reverse)

/-- Python str.lower() for the ASCII text the script handles. -/
def pyLower (s : String) : String :=
  String.mk (s.data.map Char.toLower)

/-- Helper for pyTitle: the Bool tracks whether the previous character was
alphabetic (a cased character, in ASCII terms). -/
def pyTitleAux : List Char → Bool → List Char
  | [], _ => []
  | c :: cs, prevCased =>
    if c.isAlpha then
      (if prevCased then c.toLower else c.toUpper) :: pyTitleAux cs true
    else
      c :: pyTitleAux cs false

/-- Python str.title() for ASCII text: uppercase an alphabetic character
that follows a non-alphabetic one, lowercase the rest. -/
def pyTitle (s : String) : String :=
  String.mk (pyTitleAux s.data false)

/-- Python str.split(sep) for a non-empty separator, on character lists:
scan left to right, cut at each non-overlapping occurrence of sep.
Fuel at least the length of the text is sufficient (each step consumes at
least one character; the script only splits on non-empty separators). -/
def pySplitGo (sep : List Char) : Nat → List Char → List Char → List (List Char)
  | 0, cs, acc => [acc.reverse ++ cs]
  | _fuel + 1, [], acc => [acc.reverse]
  | fuel + 1, c :: rest, acc =>
    if sep.isPrefixOf (c :: rest) then
      acc.reverse :: pySplitGo sep fuel ((c :: rest).drop sep.length) []
    else
      pySplitGo sep fuel rest (c :: acc)

/-- Python str.split(sep) for a non-empty separator. -/
def pySplit (s : String) (sep : String) : List String :=
  (pySplitGo sep.data (s.data.length + 1) s.data []).map String.mk

/-- Digits of an integer literal to its value (Python int on digit runs). -/
def digitsToNat (ds : List Char) : Nat :=
  ds.foldl (fun n c => n * 10 + (c.toNat - '0'.toNat)) 0

/-- Python int(s) on an already-stripped string: an optional sign followed
by at least one ASCII digit; anything else raises ValueError, modelled as
none.  (Python also accepts digit-group underscores and non-ASCII digits;
the script's inputs never contain those.) -/
def pyInt? (s : String) : Option Int :=
  match s.data with
  | [] => none
  | '-' :: ds =>
    if !ds.isEmpty && ds.all Char.isDigit then some (-(Int.ofNat (digitsToNat ds))) else none
  | '+' :: ds =>
    if !ds.isEmpty && ds.all Char.isDigit then some (Int.ofNat (digitsToNat ds)) else none
  | ds =>
    if !ds.isEmpty && ds.all Char.isDigit then some (Int.ofNat (digitsToNat ds)) else none

/-- Python regex word character, ASCII range: letters, digits, underscore. -/
def isWordChar (c : Char) : Bool :=
  c.isAlphanum || c = '_'

/-- One bibliography entry as built by parse_bibtex: entry type (lowercased),
entry key, parsed year (0 when absent or non-numeric), and the field
mapping. -/
structure Entry where
  type : String
  key : String
  year : Int
  fields : List (String × String)
deriving DecidableEq

/-- Python dict assignment d[k] = v on an insertion-ordered association
list: overwrite in place when the key exists, append otherwise. -/
def dictInsert : List (String × α) → String → α → List (String × α)
  | [], k, v => [(k, v)]
  | p :: ps, k, v => if p.1 = k then (k, v) :: ps else p :: dictInsert ps k v

/-- Python set.add on a duplicate-free list. -/
def setAdd (s : List String) (e : String) : List String :=
  if s.contains e then s else s ++ [e]

/-- Python set.update on a duplicate-free list. -/
def setUpdate (s : List String) (es : List String) : List String :=
  es.foldl setAdd s

/-- The categories defaultdict(set) update
categories[cat].update(entries): union into an existing category's set, or
append the category with a fresh set. -/
def catUpdate (m : List (String × List String)) (cat : String) (es : List String) :
    List (String × List String) :=
  if m.any (fun p => p.1 = cat) then
    m.map (fun p => if p.1 = cat then (p.1, setUpdate p.2 es) else p)
  else
    m ++ [(cat, setUpdate [] es)]

/-- List concatenation of the images of f (used for the line lists the
page assembler builds by repeated appending). -/
def concatMap (f : α → List β) : List α → List β
  | [] => []
  | a :: as => f a ++ concatMap f as

/-- CATEGORY_NAMES from the script: display names for the category tags. -/
def CATEGORY_NAMES : List (String × String) :=
  [("thesis", "Theses"),
   ("books", "Books"),
   ("chapters", "Book Chapters"),
   ("journals", "Journal Articles"),
   ("magazines", "Magazine Articles"),
   ("conferences", "Conference Papers"),
   ("workshops", "Workshop Papers"),
   ("posters", "Poster Papers"),
   ("demos", "Demo Papers"),
   ("techreports", "Technical Reports"),
   ("patents", "Patents")]

/-- CATEGORY_NAMES.get(cat, cat.title()). -/
def categoryDisplayName (cat : String) : String :=
  (CATEGORY_NAMES.lookup cat).getD (pyTitle cat)

/-- The fixed category display order of generate_publications_page. -/
def category_order : List String :=
  ["books", "chapters", "journals", "conferences", "workshops",
   "techreports", "posters", "demos", "thesis", "magazines", "patents"]

/-! Category Index Builder: parse_bib_entries_sty.  The directive regex is
addtocategory-backslash-brace-wordchars-brace, optional whitespace, then a
braced non-empty run of non-closing-brace characters. -/

/-- The literal prefix of the directive regex: a backslash, the word
addtocategory, and an opening brace. -/
def styDirectivePrefix : List Char := "\\addtocategory".data ++ [lbrace]

/-- Attempt to match the addtocategory directive at the head of cs.
On success, return the category tag, the raw entries text, and the rest of
the input after the match. -/
def styMatchAt (cs : List Char) : Option ((String × String) × List Char) :=
  if styDirectivePrefix.isPrefixOf cs then
    let cs1 := cs.drop styDirectivePrefix.length
    match List.span isWordChar cs1 with
    | (w, cs2) =>
      if w.isEmpty then none
      else
        match cs2 with
        | r :: cs3 =>
          if r = rbrace then
            match (cs3.dropWhile isPySpace) with
            | l :: cs5 =>
              if l = lbrace then
                match List.span (fun c => c != rbrace) cs5 with
                | (content, _r2 :: cs7) =>
                  if content.isEmpty then none
                  else some ((String.mk w, String.mk content), cs7)
                | (_, []) => none
              else none
            | [] => none
          else none
        | [] => none
  else none

/-- re.finditer over the categorization file: try the directive at every
position, left to right, resuming after each match; accumulate matches
into the categories mapping exactly as the script's loop does. -/
def scanStyAux : Nat → List Char → List (String × List String) →
    List (String × List String)
  | 0, _, acc => acc
  | _fuel + 1, [], acc => acc
  | fuel + 1, c :: rest, acc =>
    match styMatchAt (c :: rest) with
    | some ((cat, entriesStr), rem) =>
      let entries := ((pySplit entriesStr ",").map pyStrip).filter (fun e => e ≠ "")
      scanStyAux fuel rem (catUpdate acc cat entries)
    | none => scanStyAux fuel rest acc

/-- parse_bib_entries_sty: the Bool records whether the missing-file
warning was printed; a missing file (none) yields a warning and the empty
mapping, otherwise the directives of the file content are accumulated. -/
def parse_bib_entries_sty (fileContent : Option String) :
    Bool × List (String × List String) :=
  match fileContent with
  | none => (true, [])
  | some content => (false, scanStyAux content.data.length content.data [])

/-! Bibliography fallback scanner (used when the robust library is
unavailable).  parse_bibtex first strips percent comments, then finds
entries with the regex at-sign, word chars, open brace, non-comma run,
comma, then a lazy non-at-sign body ending before the next at-sign or at
the end of the text. -/

/-- Comment stripping: the MULTILINE regex percent-to-end-of-line removes,
on each line, everything from the first percent sign onward. -/
def stripComments (s : String) : String :=
  String.intercalate "\n"
    ((pySplit s "\n").map (fun line => String.mk (line.data.takeWhile (fun c => c != '%'))))

/-- Attempt to match one bibliography record at the head of cs: an
at-sign, a non-empty word-character run (the type), an opening brace, a
non-empty run of non-comma characters (the key), a comma, then the body:
everything up to but excluding the next at-sign (or the end of input).
Returns (type, key, body) and the rest of the input. -/
def bibMatchAt (cs : List Char) : Option ((String × String × String) × List Char) :=
  match cs with
  | '@' :: cs1 =>
    match List.span isWordChar cs1 with
    | (tyChars, cs2) =>
      if tyChars.isEmpty then none
      else
        match cs2 with
        | l :: cs3 =>
          if l = lbrace then
            match List.span (fun c => c != ',') cs3 with
            | (keyChars, ',' :: cs5) =>
              if keyChars.isEmpty then none
              else
                match List.span (fun c => c != '@') cs5 with
                | (body, rest) =>
                  some ((String.mk tyChars, String.mk keyChars, String.mk body), rest)
            | (_, _) => none
          else none
        | [] => none
  | _ => none

/-- re.finditer for the record regex: try every position left to right,
emit non-overlapping matches, resume after each match. -/
def scanBibAux : Nat → List Char → List (String × String × String)
  | 0, _ => []
  | _fuel + 1, [] => []
  | fuel + 1, c :: rest =>
    match bibMatchAt (c :: rest) with
    | some (m, rem) => m :: scanBibAux fuel rem
    | none => scanBibAux fuel rest

/-- All record matches of the fallback scanner over a file content. -/
def scanBibEntries (s : String) : List (String × String × String) :=
  scanBibAux s.data.length s.data

/-! Field extraction inside a record body: three finditer passes, in
order - braced values (one nesting level), double-quoted values, bare
integer values - each assigning into the same fields dict. -/

/-- Shared head of the three field regexes: a non-empty word-character
run, optional whitespace, an equals sign, optional whitespace.  Returns
the field name and the rest.  (The regex engine cannot recover by
shortening the greedy word run, because a shorter run would be followed by
a word character, which is neither whitespace nor the equals sign.) -/
def fieldAssignAt (cs : List Char) : Option (List Char × List Char) :=
  match List.span isWordChar cs with
  | (name, cs1) =>
    if name.isEmpty then none
    else
      match cs1.dropWhile isPySpace with
      | '=' :: cs2 => some (name, cs2.dropWhile isPySpace)
      | _ => none

/-- The braced-value tail: after the opening brace, the value grammar
(non-brace runs and complete single-level inner groups) means the value
extends to the first brace that returns the depth to zero, and the match
fails if a second nesting level is opened or the input ends first.
Accumulates the value characters; depth is 1 or 2. -/
def bracedValueAux : Nat → List Char → Nat → List Char → Option (List Char × List Char)
  | 0, _, _, _ => none
  | _fuel + 1, [], _, _ => none
  | fuel + 1, c :: rest, depth, acc =>
    if c = rbrace then
      if depth = 1 then some (acc.reverse, rest)
      else bracedValueAux fuel rest (depth - 1) (c :: acc)
    else if c = lbrace then
      if depth = 1 then bracedValueAux fuel rest 2 (c :: acc)
      else none
    else bracedValueAux fuel rest depth (c :: acc)

/-- Attempt the braced field regex at the head of cs. -/
def bracedFieldAt (cs : List Char) : Option ((List Char × List Char) × List Char) :=
  match fieldAssignAt cs with
  | some (name, cs1) =>
    match cs1 with
    | l :: cs2 =>
      if l = lbrace then
        match bracedValueAux (cs2.length + 1) cs2 1 [] with
        | some (content, rest) => some ((name, content), rest)
        | none => none
      else none
    | [] => none
  | none => none

/-- Attempt the quoted field regex at the head of cs: the value is a
possibly empty run of non-quote characters between double quotes. -/
def quotedFieldAt (cs : List Char) : Option ((List Char × List Char) × List Char) :=
  match fieldAssignAt cs with
  | some (name, cs1) =>
    match cs1 with
    | q :: cs2 =>
      if q = '"' then
        match List.span (fun c => c != '"') cs2 with
        | (content, _q2 :: rest) => some ((name, content), rest)
        | (_, []) => none
      else none
    | [] => none
  | none => none

/-- Attempt the bare-integer field regex at the head of cs: the value is a
non-empty digit run. -/
def numberFieldAt (cs : List Char) : Option ((List Char × List Char) × List Char) :=
  match fieldAssignAt cs with
  | some (name, cs1) =>
    match List.span Char.isDigit cs1 with
    | (digits, rest) =>
      if digits.isEmpty then none else some ((name, digits), rest)
  | none => none

/-- re.finditer for one field regex over a record body. -/
def scanFieldsAux (matchAt : List Char → Option ((List Char × List Char) × List Char)) :
    Nat → List Char → List (List Char × List Char)
  | 0, _ => []
  | _fuel + 1, [] => []
  | fuel + 1, c :: rest =>
    match matchAt (c :: rest) with
    | some (m, rem) => m :: scanFieldsAux matchAt fuel rem
    | none => scanFieldsAux matchAt fuel rest

/-- The brace-unwrapping substitution applied to field values and titles:
replace each group of an opening brace, a non-empty run of non-closing-
brace characters, and a closing brace by the run itself, scanning left to
right without rescanning replacements. -/
def stripBracesAux : Nat → List Char → List Char
  | 0, cs => cs
  | _fuel + 1, [] => []
  | fuel + 1, c :: rest =>
    if c = lbrace then
      match List.span (fun x => x != rbrace) rest with
      | (inner, _r :: after) =>
        if inner.isEmpty then c :: stripBracesAux fuel rest
        else inner ++ stripBracesAux fuel after
      | (_, []) => c :: stripBracesAux fuel rest
    else c :: stripBracesAux fuel rest

/-- String-level brace unwrapping. -/
def stripBraces (s : String) : String :=
  String.mk (stripBracesAux s.data.length s.data)

/-- Parse the fields of one record body: run the three field-regex passes
in order and assign each match into the fields dict (a later pass
overwrites an earlier one for the same name), lowercasing the name and
unwrapping braces then stripping the value, exactly as the loop body does. -/
def parseFields (body : String) : List (String × String) :=
  let cs := body.data
  let pass1 := scanFieldsAux bracedFieldAt cs.length cs
  let pass2 := scanFieldsAux quotedFieldAt cs.length cs
  let pass3 := scanFieldsAux numberFieldAt cs.length cs
  (pass1 ++ pass2 ++ pass3).foldl
    (fun m nv => dictInsert m (pyLower (String.mk nv.1)) (pyStrip (stripBraces (String.mk nv.2))))
    []

/-- Year extraction shared by both parsing modes: strip the year field,
treat the empty string as 0, parse the integer, treat a parse failure
(ValueError) as 0. -/
def parseYearInt (yearField : String) : Int :=
  let y := pyStrip yearField
  if y = "" then 0 else (pyInt? y).getD 0

/-- Build the Entry a fallback-mode record (type, key, body) produces:
lowercased type, stripped key, parsed fields, and the year parsed from the
year field. -/
def recordEntry (r : String × String × String) : Entry :=
  let fields := parseFields r.2.2
  { type := pyLower r.1
    key := pyStrip r.2.1
    year := parseYearInt ((fields.lookup "year").getD "")
    fields := fields }

/-- The fallback-mode loop body: keep the record only if its year is at
least 2022, inserting it into the entries dict under its key. -/
def fallbackStep (m : List (String × Entry)) (r : String × String × String) :
    List (String × Entry) :=
  let e := recordEntry r
  if 2022 ≤ e.year then dictInsert m e.key e else m

/-- The fallback-mode entries mapping built from the record matches. -/
def fallbackEntries (rs : List (String × String × String)) : List (String × Entry) :=
  rs.foldl fallbackStep []

/-- parse_bibtex in fallback mode, from the optional file content: a
missing file yields a warning (the Bool) and the empty mapping; otherwise
comments are stripped, records scanned, and the mapping built. -/
def parse_bibtex_fallback (fileContent : Option String) : Bool × List (String × Entry) :=
  match fileContent with
  | none => (true, [])
  | some content =>
    (false, fallbackEntries (scanBibEntries (stripComments content)))

/-- Build the Entry a robust-mode library record produces: the library
hands back one field dict per entry, with the key under ID and the type
under ENTRYTYPE; the whole dict becomes the field mapping. -/
def robustRecordEntry (entry : List (String × String)) : Entry :=
  { type := pyLower ((entry.lookup "ENTRYTYPE").getD "")
    key := (entry.lookup "ID").getD ""
    year := parseYearInt ((entry.lookup "year").getD "")
    fields := entry }

/-- The robust-mode loop body: identical year cutoff, inserting under the
ID key. -/
def robustStep (m : List (String × Entry)) (entry : List (String × String)) :
    List (String × Entry) :=
  let e := robustRecordEntry entry
  if 2022 ≤ e.year then dictInsert m e.key e else m

/-- The robust-mode entries mapping built from the library's entry dicts. -/
def robustEntries (es : List (List (String × String))) : List (String × Entry) :=
  es.foldl robustStep []

/-! Citation Formatter: format_authors and format_publication. -/

/-- The count-based branch structure of format_authors, applied to the
split-and-stripped name list (the script's if chain on len(authors); the
zero-name case is unreachable there because splitting a non-empty string
always yields at least one part). -/
def formatNameList (authors : List String) : String :=
  if authors.length = 1 then authors.getD 0 ""
  else if authors.length = 2 then authors.getD 0 "" ++ " and " ++ authors.getD 1 ""
  else if authors.length ≤ 4 then
    String.intercalate ", " authors.dropLast ++ ", and " ++ authors.getLastD ""
  else
    String.intercalate ", " (authors.take 3) ++ ", et al."

/-- format_authors: the empty author string yields the empty string; any
other author string is split on the literal separator (the word and
surrounded by single spaces), each part stripped, and the parts formatted
by count. -/
def format_authors (authors_str : String) : String :=
  if authors_str = "" then ""
  else formatNameList ((pySplit authors_str " and ").map pyStrip)

/-- The venue segment of format_publication, chosen by entry type; an
empty stripped booktitle or journal contributes no segment. -/
def venueOf (entry_type : String) (fields : List (String × String)) : List String :=
  if entry_type = "inproceedings" then
    let booktitle := pyStrip ((fields.lookup "booktitle").getD "")
    if booktitle ≠ "" then ["In " ++ booktitle] else []
  else if entry_type = "article" then
    let journal := pyStrip ((fields.lookup "journal").getD "")
    if journal ≠ "" then ["In *" ++ journal ++ "*"] else []
  else if entry_type = "inbook" ∨ entry_type = "incollection" then
    let booktitle := pyStrip ((fields.lookup "booktitle").getD "")
    if booktitle ≠ "" then ["In " ++ booktitle] else []
  else []

/-- The citation_parts list of format_publication: bold authors when
non-empty, italic title when non-empty, the venue segment, and the
parenthesised year. -/
def citationPartsOf (entry : Entry) : List String :=
  let title := stripBraces (pyStrip ((entry.fields.lookup "title").getD ""))
  let authors := format_authors ((entry.fields.lookup "author").getD "")
  (if authors ≠ "" then ["**" ++ authors ++ "**"] else [])
    ++ (if title ≠ "" then ["*" ++ title ++ "*"] else [])
    ++ venueOf entry.type entry.fields
    ++ ["(" ++ toString entry.year ++ ")"]

/-- The links list of format_publication: a PDF link whenever the url key
is present in the field mapping, and a DOI link whenever the doi key is
present - presence of the key, not non-emptiness of its value, decides. -/
def linksOf (fields : List (String × String)) : List String :=
  (if (fields.lookup "url").isSome then
      ["[PDF](" ++ pyStrip ((fields.lookup "url").getD "") ++ ")"]
    else [])
    ++ (if (fields.lookup "doi").isSome then
      ["[DOI](https://doi.org/" ++ pyStrip ((fields.lookup "doi").getD "") ++ ")"]
    else [])

/-- format_publication: join the citation parts with dot-space, append the
links joined with the bar separator when any exist, and prefix the list
marker.  The category argument is accepted and ignored, as in the script. -/
def format_publication (entry : Entry) (_category : String) : String :=
  let citation := String.intercalate ". " (citationPartsOf entry)
  let links := linksOf entry.fields
  "- " ++ (if links.isEmpty then citation else citation ++ " " ++ String.intercalate " | " links)

/-! Page Assembler: generate_publications_page. -/

/-- The category-assignment loop of generate_publications_page: scan the
categories mapping in its own (insertion) order and return the first
category whose key set contains the entry key; none means uncategorized. -/
def assignCategory : List (String × List String) → String → Option String
  | [], _ => none
  | (cat, keys) :: rest, key =>
    if keys.contains key then some cat else assignCategory rest key

/-- The categorized bucket of one category: the entries (in mapping order)
whose key the assignment loop sends to that category. -/
def categorizedBucket (entries : List (String × Entry))
    (categories : List (String × List String)) (cat : String) : List Entry :=
  (entries.filter (fun kv => assignCategory categories kv.1 == some cat)).map (fun kv => kv.2)

/-- The uncategorized bucket: the entries no category's key set contains. -/
def uncategorizedBucket (entries : List (String × Entry))
    (categories : List (String × List String)) : List Entry :=
  (entries.filter (fun kv => (assignCategory categories kv.1).isNone)).map (fun kv => kv.2)

/-- Insert an entry into a year-descending list: before the first element
whose year does not exceed it.  This is the insertion step of a stable
sort by year descending, the behaviour of the script's list.sort with a
year key and reverse set (CPython's stable sort). -/
def insertByYear (e : Entry) : List Entry → List Entry
  | [] => [e]
  | f :: fs => if f.year ≤ e.year then e :: f :: fs else f :: insertByYear e fs

/-- Stable sort by year descending (insertion sort). -/
def sortByYearDesc : List Entry → List Entry
  | [] => []
  | e :: es => insertByYear e (sortByYearDesc es)

/-- The fixed lines the page starts with (front matter, search input, and
the opening of the publications container). -/
def headerLines : List String :=
  ["---",
   "title: \"Publications\"",
   "---",
   "",
   "```\x7b=html\x7d",
   "<div style=\x27margin: 2rem 0;\x27>",
   "<input type=\x27text\x27 id=\x27pubSearch\x27 placeholder=\x27Search publications...\x27 ",
   "       style=\x27width: 100%; padding: 0.75rem; font-size: 1rem; border: 2px solid #ddd; border-radius: 8px;\x27 />",
   "</div>",
   "```",
   "",
   "```\x7b=html\x7d",
   "<div id=\x27publications-container\x27>",
   "```",
   ""]

/-- The lines emitted for one non-empty category bucket: heading, blank
line, the tagged wrapper opening, the formatted entry lines each followed
by a blank line, and the wrapper closing. -/
def categorySection (cat : String) (bucket : List Entry) : List String :=
  ["### " ++ categoryDisplayName cat,
   "",
   "```\x7b=html\x7d",
   "<div class=\x27pub-category\x27 data-category=\x27" ++ cat ++ "\x27>",
   "```",
   ""]
    ++ concatMap (fun e => [format_publication e cat, ""]) bucket
    ++ ["```\x7b=html\x7d", "</div>", "```", ""]

/-- The per-category part of the page: for each category of the fixed
display order, in that order, the section of its sorted bucket when the
bucket is non-empty. -/
def categorySectionsLines (entries : List (String × Entry))
    (categories : List (String × List String)) : List String :=
  concatMap
    (fun cat =>
      let bucket := sortByYearDesc (categorizedBucket entries categories cat)
      if bucket.isEmpty then [] else categorySection cat bucket)
    category_order

/-- The Other Publications section, emitted only when the uncategorized
bucket is non-empty, with the bucket sorted by year descending. -/
def otherSection (entries : List (String × Entry))
    (categories : List (String × List String)) : List String :=
  let uncategorized := uncategorizedBucket entries categories
  if uncategorized.isEmpty then []
  else
    ["### Other Publications",
     "",
     "```\x7b=html\x7d",
     "<div class=\x27pub-category\x27 data-category=\x27other\x27>",
     "```",
     ""]
      ++ concatMap (fun e => [format_publication e "other", ""]) (sortByYearDesc uncategorized)
      ++ ["```\x7b=html\x7d", "</div>", "```", ""]

/-- The fixed lines the page ends with: the container closing and the
verbatim client-side search script. -/
def footerLines : List String :=
  ["```\x7b=html\x7d",
   "</div>",
   "```",
   "",
   "```\x7b=html\x7d",
   "<script>",
   "document.addEventListener(\x27DOMContentLoaded\x27, function() \x7b",
   "  const searchInput = document.getElementById(\x27pubSearch\x27);",
   "  const categories = document.querySelectorAll(\x27.pub-category\x27);",
   "",
   "  searchInput.addEventListener(\x27input\x27, function(e) \x7b",
   "    const searchTerm = e.target.value.toLowerCase();",
   "",
   "    categories.forEach(category => \x7b",
   "      const items = category.querySelectorAll(\x27li\x27);",
   "      let hasVisible = false;",
   "",
   "      items.forEach(item => \x7b",
   "        const text = item.textContent.toLowerCase();",
   "        if (text.includes(searchTerm)) \x7b",
   "          item.style.display = \x27\x27;",
   "          hasVisible = true;",
   "        \x7d else \x7b",
   "          item.style.display = \x27none\x27;",
   "        \x7d",
   "      \x7d);",
   "",
   "      // Hide category if no visible items",
   "      const categoryHeading = category.previousElementSibling;",
   "      if (categoryHeading && categoryHeading.tagName === \x27H3\x27) \x7b",
   "        if (hasVisible || searchTerm === \x27\x27) \x7b",
   "          categoryHeading.style.display = \x27\x27;",
   "          category.style.display = \x27\x27;",
   "        \x7d else \x7b",
   "          categoryHeading.style.display = \x27none\x27;",
   "          category.style.display = \x27none\x27;",
   "        \x7d",
   "      \x7d",
   "    \x7d);",
   "  \x7d);",
   "\x7d);",
   "</script>",
   "```"]

/-- All lines of the generated page, in order. -/
def pageLines (entries : List (String × Entry))
    (categories : List (String × List String)) : List String :=
  headerLines ++ categorySectionsLines entries categories
    ++ otherSection entries categories ++ footerLines

/-- generate_publications_page: the page text, the lines joined with
newlines. -/
def generate_publications_page (entries : List (String × Entry))
    (categories : List (String × List String)) : String :=
  String.intercalate "\n" (pageLines entries categories)

/-- One full run of the pipeline (fallback parsing mode) as a function of
the two input file contents (none models a missing file): build the
category index, parse the bibliography, and assemble the page.  The
script's only other effects are progress printing and the final file
write of exactly this text. -/
def runPipeline (styContent bibContent : Option String) : String :=
  let categories := (parse_bib_entries_sty styContent).2
  let entries := (parse_bibtex_fallback bibContent).2
  generate_publications_page entries categories

/-! Specification-side definitions, each written from the words of the
claim it is compared against, and the concrete inputs used by the
counterexamples and witnesses. -/

/-- The assignment rule as claim C1 words it, for comparison with
assignCategory: the first category of the fixed priority order whose key
set in the Category Index contains the key. -/
def priorityAssign (categories : List (String × List String)) (key : String) : Option String :=
  category_order.find? (fun cat =>
    match categories.lookup cat with
    | some ks => ks.contains key
    | none => false)

/-- The author-name list as claim C4 words it: split the author field on
the literal separator, trim each name; the empty field yields no names. -/
def authorNames (s : String) : List String :=
  if s = "" then [] else (pySplit s " and ").map pyStrip

/-- Author formatting by count, as claim C4 words it: zero names yield
the empty string, one name is returned as-is, two names are joined with
the word and, three or four names are comma-joined with an Oxford comma
before the last, five or more yield the first three comma-joined followed
by the et-al marker. -/
def spec_format_names : List String → String
  | [] => ""
  | [a] => a
  | [a, b] => a ++ " and " ++ b
  | a :: b :: c :: rest =>
    if (a :: b :: c :: rest).length ≤ 4 then
      String.intercalate ", " (a :: b :: c :: rest).dropLast ++ ", and "
        ++ (a :: b :: c :: rest).getLastD ""
    else
      String.intercalate ", " ((a :: b :: c :: rest).take 3) ++ ", et al."

/-- The last element of a list satisfying a predicate, if any (used to
state which bibliography record a key's surviving Entry comes from). -/
def lastMatch? (p : α → Bool) : List α → Option α
  | [] => none
  | a :: as =>
    match lastMatch? p as with
    | some b => some b
    | none => if p a then some a else none

/-- Categorization input for the counterexample to claim C1: the same key
in two categories, the conferences directive first. -/
def c1Sty : String :=
  "\\addtocategory\x7bconferences\x7d\x7bk\x7d\n\\addtocategory\x7bbooks\x7d\x7bk\x7d\n"

/-- Bibliography input for the counterexample to claim C1: one qualifying
entry with the doubly-categorized key. -/
def c1Bib : String := "@article\x7bk,\n  year = \x7b2023\x7d\n\x7d\n"

/-- Categorization input for the counterexample to claim C3: the key is in
exactly one category, but that category is not in the fixed display order. -/
def c3Sty : String := "\\addtocategory\x7bmisc\x7d\x7bk2023\x7d\n"

/-- Bibliography input for the counterexample to claim C3. -/
def c3Bib : String := "@article\x7bk2023,\n  year = \x7b2023\x7d\n\x7d\n"

/-- Bibliography input for the end-to-end scenario of claim C5 (the doi
value is brace-delimited, the encoding both parsing modes read as the
field value of the scenario). -/
def c5Bib : String :=
  "@article\x7bfoo2023,\n  year = \x7b2023\x7d,\n  author = \x7bJane Doe\x7d,\n  title = \x7bA Great Paper\x7d,\n  journal = \x7bJournal of Tests\x7d,\n  doi = \x7b10.1/xyz\x7d\n\x7d\n"

/-- Categorization input for the end-to-end scenario of claim C5. -/
def c5Sty : String := "\\addtocategory\x7bjournals\x7d\x7bfoo2023\x7d\n"

/-- Bibliography input for the witness of claim C7: one qualifying entry,
no categorization file. -/
def c7Bib : String := "@misc\x7bm2022,\n  year = \x7b2022\x7d\n\x7d\n"

/-- Bibliography input for the counterexample to claim C9: the same key
twice, the later record failing the year cutoff. -/
def c9Bib : String :=
  "@article\x7bk,\n  year = \x7b2023\x7d\n\x7d\n@article\x7bk,\n  year = \x7b2020\x7d\n\x7d\n"

/-! Helper lemmas. -/

theorem mem_insertByYear (e a : Entry) :
    ∀ l : List Entry, a ∈ insertByYear e l ↔ a = e ∨ a ∈ l
  | [] => by simp [insertByYear]
  | f :: fs => by
    simp only [insertByYear]
    split
    · simp [List.mem_cons]
    · simp only [List.mem_cons, mem_insertByYear e a fs]
      tauto

theorem pairwise_insertByYear (e : Entry) :
    ∀ l : List Entry, List.Pairwise (fun a b => b.year ≤ a.year) l →
      List.Pairwise (fun a b => b.year ≤ a.year) (insertByYear e l)
  | [], _ => by simp [insertByYear]
  | f :: fs, h => by
    rcases List.pairwise_cons.mp h with ⟨hf, hfs⟩
    simp only [insertByYear]
    split
    case isTrue hle =>
      refine List.pairwise_cons.mpr ⟨?_, h⟩
      intro x hx
      rcases List.mem_cons.mp hx with rfl | hx'
      · exact hle
      · exact le_trans (hf x hx') hle
    case isFalse hgt =>
      refine List.pairwise_cons.mpr ⟨?_, pairwise_insertByYear e fs hfs⟩
      intro x hx
      rcases (mem_insertByYear e x fs).mp hx with rfl | hx'
      · exact le_of_lt (not_le.mp hgt)
      · exact hf x hx'

theorem pairwise_sortByYearDesc :
    ∀ l : List Entry, List.Pairwise (fun a b => b.year ≤ a.year) (sortByYearDesc l)
  | [] => by simp [sortByYearDesc]
  | e :: es => pairwise_insertByYear e _ (pairwise_sortByYearDesc es)

theorem filter_insertByYear (e : Entry) (y : Int) :
    ∀ l : List Entry,
      (insertByYear e l).filter (fun x => x.year == y) =
        (if e.year = y then e :: l.filter (fun x => x.year == y)
         else l.filter (fun x => x.year == y))
  | [] => by
    by_cases hey : e.year = y
    · simp [insertByYear, List.filter_cons, beq_iff_eq.mpr hey, hey]
    · simp [insertByYear, List.filter_cons, beq_eq_false_iff_ne.mpr hey, hey]
  | f :: fs => by
    simp only [insertByYear]
    split
    case isTrue hle =>
      by_cases hey : e.year = y
      · simp [List.filter_cons, beq_iff_eq.mpr hey, hey]
      · simp [List.filter_cons, beq_eq_false_iff_ne.mpr hey, hey]
    case isFalse hgt =>
      have hlt : e.year < f.year := not_le.mp hgt
      by_cases hey : e.year = y
      · have hfy : (f.year == y) = false := beq_eq_false_iff_ne.mpr (by intro hf; omega)
        simp [List.filter_cons, filter_insertByYear e y fs, hey, hfy]
      · simp [List.filter_cons, filter_insertByYear e y fs, hey]

theorem filter_sortByYearDesc (y : Int) :
    ∀ l : List Entry,
      (sortByYearDesc l).filter (fun x => x.year == y) = l.filter (fun x => x.year == y)
  | [] => rfl
  | e :: es => by
    simp only [sortByYearDesc]
    rw [filter_insertByYear e y (sortByYearDesc es), filter_sortByYearDesc y es,
      List.filter_cons]
    by_cases hey : e.year = y <;> simp [hey]

theorem mem_sortByYearDesc (a : Entry) :
    ∀ l : List Entry, a ∈ sortByYearDesc l ↔ a ∈ l
  | [] => Iff.rfl
  | e :: es => by
    simp only [sortByYearDesc, mem_insertByYear, mem_sortByYearDesc a es, List.mem_cons]

theorem mem_concatMap (f : α → List β) (b : β) :
    ∀ l : List α, b ∈ concatMap f l ↔ ∃ a, a ∈ l ∧ b ∈ f a
  | [] => by simp [concatMap]
  | a :: as => by
    simp only [concatMap, List.mem_append, mem_concatMap f b as, List.mem_cons]
    constructor
    · rintro (hb | ⟨x, hx, hb⟩)
      · exact ⟨a, Or.inl rfl, hb⟩
      · exact ⟨x, Or.inr hx, hb⟩
    · rintro ⟨x, rfl | hx, hb⟩
      · exact Or.inl hb
      · exact Or.inr ⟨x, hx, hb⟩

theorem isEmpty_false_of_mem {a : α} {l : List α} (h : a ∈ l) : l.isEmpty = false := by
  cases l with
  | nil => cases h
  | cons x xs => rfl

theorem lookup_dictInsert_self (k : String) (v : α) :
    ∀ m : List (String × α), (dictInsert m k v).lookup k = some v
  | [] => by simp [dictInsert, List.lookup]
  | p :: ps => by
    simp only [dictInsert]
    split
    case isTrue h => simp [List.lookup]
    case isFalse h =>
      have hk : (k == p.1) = false := by
        simp only [beq_eq_false_iff_ne, ne_eq]
        exact fun hkk => h (hkk ▸ rfl)
      simp [List.lookup, hk, lookup_dictInsert_self k v ps]

theorem lookup_dictInsert_ne (k k' : String) (v : α) (hne : k' ≠ k) :
    ∀ m : List (String × α), (dictInsert m k v).lookup k' = m.lookup k'
  | [] => by
    have h1 : (k' == k) = false := beq_eq_false_iff_ne.mpr hne
    simp [dictInsert, List.lookup, h1]
  | p :: ps => by
    simp only [dictInsert]
    split
    case isTrue h =>
      have h1 : (k' == k) = false := by simpa [beq_eq_false_iff_ne] using hne
      have h2 : (k' == p.1) = false := by
        simp only [beq_eq_false_iff_ne, ne_eq]
        exact fun hk => hne (hk.trans h)
      simp [List.lookup, h1, h2]
    case isFalse h =>
      simp only [List.lookup]
      cases hk : (k' == p.1) with
      | true => rfl
      | false => exact lookup_dictInsert_ne k k' v hne ps

theorem mem_dictInsert (p : String × α) (k : String) (v : α) :
    ∀ m : List (String × α), p ∈ dictInsert m k v → p = (k, v) ∨ p ∈ m
  | [] => by simp [dictInsert]
  | q :: qs => by
    simp only [dictInsert]
    split
    case isTrue h =>
      intro hp
      rcases List.mem_cons.mp hp with rfl | hp'
      · exact Or.inl rfl
      · exact Or.inr (List.mem_cons_of_mem q hp')
    case isFalse h =>
      intro hp
      rcases List.mem_cons.mp hp with rfl | hp'
      · exact Or.inr (List.mem_cons_self p qs)
      · rcases mem_dictInsert p k v qs hp' with h1 | h1
        · exact Or.inl h1
        · exact Or.inr (List.mem_cons_of_mem q h1)

theorem pySplitGo_ne_nil (sep : List Char) :
    ∀ (fuel : Nat) (cs acc : List Char), pySplitGo sep fuel cs acc ≠ []
  | 0, cs, acc => by simp [pySplitGo]
  | fuel + 1, [], acc => by simp [pySplitGo]
  | fuel + 1, c :: rest, acc => by
    simp only [pySplitGo]
    split
    · simp
    · exact pySplitGo_ne_nil sep fuel rest (c :: acc)

theorem pySplit_ne_nil (s sep : String) : pySplit s sep ≠ [] := by
  simp only [pySplit]
  intro h
  exact pySplitGo_ne_nil sep.data (s.data.length + 1) s.data [] (List.map_eq_nil_iff.mp h)

theorem formatNameList_eq_spec :
    ∀ l : List String, l ≠ [] → formatNameList l = spec_format_names l
  | [], h => absurd rfl h
  | [a], _ => rfl
  | [a, b], _ => rfl
  | a :: b :: c :: rest, _ => by
    have h1 : ¬ (a :: b :: c :: rest).length = 1 := by
      simp only [List.length_cons]
      omega
    have h2 : ¬ (a :: b :: c :: rest).length = 2 := by
      simp only [List.length_cons]
      omega
    simp only [formatNameList, spec_format_names, if_neg h1, if_neg h2]

theorem lookup_yearGatedBuild (f : α → Entry) (key : String) :
    ∀ (rs : List α) (m : List (String × Entry)),
      ((rs.foldl
          (fun acc r => if 2022 ≤ (f r).year then dictInsert acc (f r).key (f r) else acc)
          m).lookup key) =
        (match lastMatch? (fun r => (f r).key == key && decide (2022 ≤ (f r).year)) rs with
          | some r => some (f r)
          | none => m.lookup key)
  | [], m => by simp [lastMatch?]
  | r :: rs', m => by
    simp only [List.foldl_cons]
    rw [lookup_yearGatedBuild f key rs']
    cases hl : lastMatch? (fun r => (f r).key == key && decide (2022 ≤ (f r).year)) rs' with
    | some b => simp [lastMatch?, hl]
    | none =>
      simp only [lastMatch?, hl]
      by_cases hy : 2022 ≤ (f r).year
      · by_cases hk : (f r).key = key
        · have hp : ((f r).key == key && decide (2022 ≤ (f r).year)) = true := by
            simp [hk, hy]
          simp only [if_pos hy, hp, if_pos]
          rw [← hk, lookup_dictInsert_self]
        · have hp : ((f r).key == key && decide (2022 ≤ (f r).year)) = false := by
            simp [hk]
          simp only [if_pos hy, hp]
          rw [lookup_dictInsert_ne _ _ _ (fun h => hk h.symm)]
          simp
      · have hp : ((f r).key == key && decide (2022 ≤ (f r).year)) = false := by
          simp [hy]
        simp [if_neg hy, hp]

theorem year_lb_yearGatedBuild (f : α → Entry) :
    ∀ (rs : List α) (m : List (String × Entry)),
      (∀ p ∈ m, 2022 ≤ p.2.year) →
      ∀ p ∈ rs.foldl
          (fun acc r => if 2022 ≤ (f r).year then dictInsert acc (f r).key (f r) else acc)
          m, 2022 ≤ p.2.year
  | [], m, hm => hm
  | r :: rs', m, hm => by
    simp only [List.foldl_cons]
    refine year_lb_yearGatedBuild f rs' _ ?_
    intro p hp
    by_cases hy : 2022 ≤ (f r).year
    · rw [if_pos hy] at hp
      rcases mem_dictInsert p (f r).key (f r) m hp with rfl | hp'
      · exact hy
      · exact hm p hp'
    · rw [if_neg hy] at hp
      exact hm p hp

theorem assignCategory_eq_find? :
    ∀ (cats : List (String × List String)) (key : String),
      assignCategory cats key = (cats.find? (fun p => p.2.contains key)).map Prod.fst
  | [], _ => rfl
  | (cat, keys) :: rest, key => by
    by_cases h : key ∈ keys
    · simp [assignCategory, List.find?, h]
    · simp [assignCategory, List.find?, h, assignCategory_eq_find? rest key]

theorem assignCategory_of_filter_eq :
    ∀ (cats : List (String × List String)) (key cat : String) (keys : List String),
      cats.filter (fun p => p.2.contains key) = [(cat, keys)] →
      assignCategory cats key = some cat
  | [], key, cat, keys, h => by simp [List.filter] at h
  | (c, ks) :: ps, key, cat, keys, h => by
    by_cases hp : key ∈ ks
    · rw [List.filter_cons_of_pos (by simpa using hp)] at h
      injection h with h1 h2
      simp only [assignCategory]
      rw [if_pos (by simpa using hp)]
      exact congrArg some (congrArg Prod.fst h1)
    · rw [List.filter_cons_of_neg (by simpa using hp)] at h
      have hrec : assignCategory ps key = some cat :=
        assignCategory_of_filter_eq ps key cat keys h
      simp only [assignCategory]
      rw [if_neg (by simpa using hp)]
      exact hrec

theorem mem_categorizedBucket_of (entries : List (String × Entry))
    (cats : List (String × List String)) (k : String) (e : Entry) (cat : String)
    (hkv : (k, e) ∈ entries) (hassign : assignCategory cats k = some cat) :
    e ∈ categorizedBucket entries cats cat :=
  List.mem_map.mpr ⟨(k, e), List.mem_filter.mpr ⟨hkv, by simp [hassign]⟩, rfl⟩

theorem mem_uncategorizedBucket_of (entries : List (String × Entry))
    (cats : List (String × List String)) (k : String) (e : Entry)
    (hkv : (k, e) ∈ entries) (hassign : assignCategory cats k = none) :
    e ∈ uncategorizedBucket entries cats :=
  List.mem_map.mpr ⟨(k, e), List.mem_filter.mpr ⟨hkv, by simp [hassign]⟩, rfl⟩

theorem of_mem_categorizedBucket (entries : List (String × Entry))
    (cats : List (String × List String)) (cat : String) (e : Entry)
    (h : e ∈ categorizedBucket entries cats cat) : ∃ k, (k, e) ∈ entries := by
  rcases List.mem_map.mp h with ⟨kv, hkv, hkv2⟩
  have hkv' : kv ∈ entries := (List.mem_filter.mp hkv).1
  refine ⟨kv.1, ?_⟩
  rw [← hkv2, Prod.mk.eta]
  exact hkv'

theorem of_mem_uncategorizedBucket (entries : List (String × Entry))
    (cats : List (String × List String)) (e : Entry)
    (h : e ∈ uncategorizedBucket entries cats) : ∃ k, (k, e) ∈ entries := by
  rcases List.mem_map.mp h with ⟨kv, hkv, hkv2⟩
  have hkv' : kv ∈ entries := (List.mem_filter.mp hkv).1
  refine ⟨kv.1, ?_⟩
  rw [← hkv2, Prod.mk.eta]
  exact hkv'

theorem format_mem_categorySection (cat : String) (bucket : List Entry) (e : Entry)
    (he : e ∈ bucket) :
    format_publication e cat ∈ categorySection cat bucket := by
  simp only [categorySection, List.mem_append]
  refine Or.inl (Or.inr ?_)
  exact (mem_concatMap _ _ bucket).mpr ⟨e, he, by simp⟩

theorem heading_mem_categorySection (cat : String) (bucket : List Entry) :
    "### " ++ categoryDisplayName cat ∈ categorySection cat bucket := by
  simp [categorySection]

theorem mem_pageLines_of_mem_categorySection (entries : List (String × Entry))
    (cats : List (String × List String)) (cat : String) (line : String)
    (hcat : cat ∈ category_order)
    (hne : (sortByYearDesc (categorizedBucket entries cats cat)).isEmpty = false)
    (hline : line ∈ categorySection cat (sortByYearDesc (categorizedBucket entries cats cat))) :
    line ∈ pageLines entries cats := by
  simp only [pageLines, List.mem_append]
  refine Or.inl (Or.inl (Or.inr ?_))
  simp only [categorySectionsLines]
  refine (mem_concatMap _ _ category_order).mpr ⟨cat, hcat, ?_⟩
  simpa [hne] using hline

theorem otherSection_facts (entries : List (String × Entry))
    (cats : List (String × List String)) (e : Entry)
    (he : e ∈ uncategorizedBucket entries cats) :
    "### Other Publications" ∈ otherSection entries cats ∧
    format_publication e "other" ∈ otherSection entries cats := by
  have hne : (uncategorizedBucket entries cats).isEmpty = false := isEmpty_false_of_mem he
  simp only [otherSection, hne, Bool.false_eq_true, if_false]
  constructor
  · simp
  · simp only [List.mem_append]
    refine Or.inl (Or.inr ?_)
    exact (mem_concatMap _ _ _).mpr ⟨e, (mem_sortByYearDesc e _).mpr he, by simp⟩

theorem mem_pageLines_of_mem_otherSection (entries : List (String × Entry))
    (cats : List (String × List String)) (line : String)
    (hline : line ∈ otherSection entries cats) :
    line ∈ pageLines entries cats := by
  simp only [pageLines, List.mem_append]
  exact Or.inl (Or.inr hline)

theorem fallbackEntries_year_lb (rs : List (String × String × String))
    (p : String × Entry) (hp : p ∈ fallbackEntries rs) : 2022 ≤ p.2.year := by
  have hstep : fallbackEntries rs =
      rs.foldl
        (fun acc r =>
          if 2022 ≤ (recordEntry r).year then dictInsert acc (recordEntry r).key (recordEntry r)
          else acc)
        [] := rfl
  rw [hstep] at hp
  exact year_lb_yearGatedBuild recordEntry rs [] (fun q hq => absurd hq (List.not_mem_nil q)) p hp

theorem robustEntries_year_lb (es : List (List (String × String)))
    (p : String × Entry) (hp : p ∈ robustEntries es) : 2022 ≤ p.2.year := by
  have hstep : robustEntries es =
      es.foldl
        (fun acc en =>
          if 2022 ≤ (robustRecordEntry en).year then
            dictInsert acc (robustRecordEntry en).key (robustRecordEntry en)
          else acc)
        [] := rfl
  rw [hstep] at hp
  exact year_lb_yearGatedBuild robustRecordEntry es []
    (fun q hq => absurd hq (List.not_mem_nil q)) p hp

theorem rendered_year_lb (entries : List (String × Entry))
    (cats : List (String × List String)) (cat : String) (e : Entry)
    (hmap : ∀ p ∈ entries, 2022 ≤ p.2.year)
    (he : e ∈ sortByYearDesc (categorizedBucket entries cats cat) ∨
          e ∈ sortByYearDesc (uncategorizedBucket entries cats)) :
    2022 ≤ e.year := by
  rcases he with he | he
  · rcases of_mem_categorizedBucket entries cats cat e ((mem_sortByYearDesc e _).mp he) with ⟨k, hk⟩
    exact hmap (k, e) hk
  · rcases of_mem_uncategorizedBucket entries cats e ((mem_sortByYearDesc e _).mp he) with ⟨k, hk⟩
    exact hmap (k, e) hk

/-! The claim theorems. -/

set_option maxRecDepth 10000

/-- Claim C1 counterexample: with the categorization file listing the
conferences directive before the books directive and both containing the
key, the code assigns the key to conferences (the Category Index's own
order), while the claim's fixed priority order of section 6 would pick
books; the page renders the entry under Conference Papers and has no Books
heading. -/
theorem assignment_priority_order_counterexample :
    (parse_bib_entries_sty (some c1Sty)).2 = [("conferences", ["k"]), ("books", ["k"])] ∧
    assignCategory [("conferences", ["k"]), ("books", ["k"])] "k" = some "conferences" ∧
    priorityAssign [("conferences", ["k"]), ("books", ["k"])] "k" = some "books" ∧
    "### Conference Papers" ∈
      pageLines (parse_bibtex_fallback (some c1Bib)).2 (parse_bib_entries_sty (some c1Sty)).2 ∧
    "### Books" ∉
      pageLines (parse_bibtex_fallback (some c1Bib)).2 (parse_bib_entries_sty (some c1Sty)).2 := by
  decide

/-- Claim C1 (corrected): for an entry of the mapping, the category
assigned for rendering is the first category containing the key in the
Category Index's own order (the order categories first appear in the
categorization file), not the fixed display order; the entry then lands in
that category's bucket, and in the uncategorized bucket when no category
contains the key. -/
theorem assignment_first_match_in_index_order
    (categories : List (String × List String)) (entries : List (String × Entry))
    (kv : String × Entry) (hkv : kv ∈ entries) :
    assignCategory categories kv.1 =
      ((categories.find? (fun p => p.2.contains kv.1)).map Prod.fst) ∧
    (∀ cat : String, assignCategory categories kv.1 = some cat →
      kv.2 ∈ categorizedBucket entries categories cat) ∧
    (assignCategory categories kv.1 = none →
      kv.2 ∈ uncategorizedBucket entries categories) := by
  obtain ⟨k, e⟩ := kv
  exact ⟨assignCategory_eq_find? categories k,
    fun cat hc => mem_categorizedBucket_of entries categories k e cat hkv hc,
    fun hn => mem_uncategorizedBucket_of entries categories k e hkv hn⟩

/-- Witness for the corrected claim C1 at a concrete input. -/
theorem assignment_first_match_in_index_order_witness :
    assignCategory [("journals", ["w2023"])] "w2023" =
      (([("journals", ["w2023"])].find?
        (fun p : String × List String => p.2.contains "w2023")).map Prod.fst) ∧
    (∀ cat : String, assignCategory [("journals", ["w2023"])] "w2023" = some cat →
      (⟨"article", "w2023", 2023, []⟩ : Entry) ∈
        categorizedBucket [("w2023", ⟨"article", "w2023", 2023, []⟩)]
          [("journals", ["w2023"])] cat) ∧
    (assignCategory [("journals", ["w2023"])] "w2023" = none →
      (⟨"article", "w2023", 2023, []⟩ : Entry) ∈
        uncategorizedBucket [("w2023", ⟨"article", "w2023", 2023, []⟩)]
          [("journals", ["w2023"])]) :=
  assignment_first_match_in_index_order [("journals", ["w2023"])]
    [("w2023", ⟨"article", "w2023", 2023, []⟩)]
    ("w2023", ⟨"article", "w2023", 2023, []⟩) (by decide)

/-- Claim C2 (confirmed): in both parsing modes every entry of the result
mapping has year at least 2022 - a record whose year field parses below
2022 (absent or non-numeric parsing as 0) is excluded - and every entry of
any rendered bucket of the page comes from the mapping, so no such entry
ever appears in the output. -/
theorem year_cutoff_filter :
    (∀ (rs : List (String × String × String)) (p : String × Entry),
      p ∈ fallbackEntries rs → 2022 ≤ p.2.year) ∧
    (∀ (es : List (List (String × String))) (p : String × Entry),
      p ∈ robustEntries es → 2022 ≤ p.2.year) ∧
    (∀ (rs : List (String × String × String)) (cats : List (String × List String))
      (cat : String) (e : Entry),
      (e ∈ sortByYearDesc (categorizedBucket (fallbackEntries rs) cats cat) ∨
        e ∈ sortByYearDesc (uncategorizedBucket (fallbackEntries rs) cats)) →
      2022 ≤ e.year) ∧
    (∀ (es : List (List (String × String))) (cats : List (String × List String))
      (cat : String) (e : Entry),
      (e ∈ sortByYearDesc (categorizedBucket (robustEntries es) cats cat) ∨
        e ∈ sortByYearDesc (uncategorizedBucket (robustEntries es) cats)) →
      2022 ≤ e.year) :=
  ⟨fallbackEntries_year_lb, robustEntries_year_lb,
    fun rs cats cat e he => rendered_year_lb _ cats cat e (fallbackEntries_year_lb rs) he,
    fun es cats cat e he => rendered_year_lb _ cats cat e (robustEntries_year_lb es) he⟩

/-- Witness for claim C2 at a concrete input: a 2023 record survives the
filter and indeed has year at least 2022. -/
theorem year_cutoff_filter_witness :
    (2022 : Int) ≤ (⟨"article", "k", 2023, [("year", "2023")]⟩ : Entry).year :=
  year_cutoff_filter.1 [("article", "k", " year = \x7b2023\x7d,")]
    ("k", ⟨"article", "k", 2023, [("year", "2023")]⟩) (by decide)

/-- Claim C3 counterexample: a 2023 entry whose key is in exactly one
category of the Category Index (the category misc, which is not in the
fixed display order) is not rendered at all - the page is just the header
and footer, with no heading and no list item for it. -/
theorem unknown_category_dropped_counterexample :
    ((parse_bib_entries_sty (some c3Sty)).2.filter (fun p => p.2.contains "k2023")).length = 1 ∧
    (parse_bibtex_fallback (some c3Bib)).2 =
      [("k2023", ⟨"article", "k2023", 2023, [("year", "2023")]⟩)] ∧
    pageLines (parse_bibtex_fallback (some c3Bib)).2 (parse_bib_entries_sty (some c3Sty)).2 =
      headerLines ++ footerLines := by
  decide

/-- Claim C3 (corrected): an entry of the mapping whose key is present in
exactly one category's key set is rendered under that category's heading
provided the category is one of the fixed display-order categories; keys
whose only category is outside that list are not rendered at all. -/
theorem unique_category_rendered_in_display_order
    (entries : List (String × Entry)) (categories : List (String × List String))
    (k : String) (e : Entry) (cat : String) (keys : List String)
    (hkv : (k, e) ∈ entries)
    (huniq : categories.filter (fun p => p.2.contains k) = [(cat, keys)])
    (hcat : cat ∈ category_order) :
    format_publication e cat ∈
      categorySection cat (sortByYearDesc (categorizedBucket entries categories cat)) ∧
    "### " ++ categoryDisplayName cat ∈ pageLines entries categories ∧
    format_publication e cat ∈ pageLines entries categories := by
  have hassign : assignCategory categories k = some cat :=
    assignCategory_of_filter_eq categories k cat keys huniq
  have hbucket : e ∈ categorizedBucket entries categories cat :=
    mem_categorizedBucket_of entries categories k e cat hkv hassign
  have hsorted : e ∈ sortByYearDesc (categorizedBucket entries categories cat) :=
    (mem_sortByYearDesc e _).mpr hbucket
  have hne := isEmpty_false_of_mem hsorted
  have hfmt := format_mem_categorySection cat _ e hsorted
  exact ⟨hfmt,
    mem_pageLines_of_mem_categorySection entries categories cat _ hcat hne
      (heading_mem_categorySection cat _),
    mem_pageLines_of_mem_categorySection entries categories cat _ hcat hne hfmt⟩

/-- Witness for the corrected claim C3 at a concrete input. -/
theorem unique_category_rendered_in_display_order_witness :
    format_publication (⟨"book", "b2024", 2024, []⟩ : Entry) "books" ∈
      categorySection "books"
        (sortByYearDesc
          (categorizedBucket [("b2024", ⟨"book", "b2024", 2024, []⟩)]
            [("books", ["b2024"])] "books")) ∧
    "### " ++ categoryDisplayName "books" ∈
      pageLines [("b2024", ⟨"book", "b2024", 2024, []⟩)] [("books", ["b2024"])] ∧
    format_publication (⟨"book", "b2024", 2024, []⟩ : Entry) "books" ∈
      pageLines [("b2024", ⟨"book", "b2024", 2024, []⟩)] [("books", ["b2024"])] :=
  unique_category_rendered_in_display_order
    [("b2024", ⟨"book", "b2024", 2024, []⟩)] [("books", ["b2024"])]
    "b2024" ⟨"book", "b2024", 2024, []⟩ "books" ["b2024"]
    (by decide) (by decide) (by decide)

/-- Claim C4 (confirmed): format_authors splits the author field on the
literal separator, trims each name, and formats by count exactly as the
claim states, including the five-name example. -/
theorem author_formatting_spec (s : String) :
    format_authors s = spec_format_names (authorNames s) ∧
    format_authors "Alice" = "Alice" ∧
    format_authors "Alice and Bob" = "Alice and Bob" ∧
    format_authors "Alice and Bob and Carol" = "Alice, Bob, and Carol" ∧
    format_authors "A and B and C and D and E" = "A, B, C, et al." := by
  refine ⟨?_, by decide, by decide, by decide, by decide⟩
  by_cases hs : s = ""
  · subst hs; rfl
  · simp only [format_authors, authorNames, if_neg hs]
    refine formatNameList_eq_spec _ ?_
    intro hnil
    exact pySplit_ne_nil s " and " (List.map_eq_nil_iff.mp hnil)

/-- Claim C5 (confirmed): the end-to-end scenario - one article entry with
key foo2023, year 2023, author Jane Doe, title A Great Paper, journal
Journal of Tests, doi 10.1/xyz, categorized under journals - yields a page
containing the Journal Articles heading, the journals-tagged wrapper, and
the expected list item. -/
theorem end_to_end_journal_article :
    "### Journal Articles" ∈
      pageLines (parse_bibtex_fallback (some c5Bib)).2 (parse_bib_entries_sty (some c5Sty)).2 ∧
    "<div class=\x27pub-category\x27 data-category=\x27journals\x27>" ∈
      pageLines (parse_bibtex_fallback (some c5Bib)).2 (parse_bib_entries_sty (some c5Sty)).2 ∧
    "- **Jane Doe**. *A Great Paper*. In *Journal of Tests*. (2023) [DOI](https://doi.org/10.1/xyz)" ∈
      pageLines (parse_bibtex_fallback (some c5Bib)).2 (parse_bib_entries_sty (some c5Sty)).2 := by
  refine ⟨by decide, by decide, by decide⟩

/-- Claim C6 (confirmed): every rendered bucket (each display category's
bucket and the uncategorized bucket) is sorted by year descending - any
earlier element has year at least that of any later one - and the sort is
stable with no secondary key: for each year value, the elements of that
year appear in exactly their encounter order. -/
theorem rendered_buckets_sorted_stable (entries : List (String × Entry))
    (categories : List (String × List String)) (cat : String) (y : Int) :
    List.Pairwise (fun a b => b.year ≤ a.year)
      (sortByYearDesc (categorizedBucket entries categories cat)) ∧
    List.Pairwise (fun a b => b.year ≤ a.year)
      (sortByYearDesc (uncategorizedBucket entries categories)) ∧
    (sortByYearDesc (categorizedBucket entries categories cat)).filter (fun e => e.year == y) =
      (categorizedBucket entries categories cat).filter (fun e => e.year == y) ∧
    (sortByYearDesc (uncategorizedBucket entries categories)).filter (fun e => e.year == y) =
      (uncategorizedBucket entries categories).filter (fun e => e.year == y) :=
  ⟨pairwise_sortByYearDesc _, pairwise_sortByYearDesc _,
    filter_sortByYearDesc y _, filter_sortByYearDesc y _⟩

/-- Claim C7 (confirmed): a missing categorization file produces the
warning and the empty mapping, the run still assembles the page from the
empty mapping, and every entry of the bibliography mapping is rendered in
the Other Publications section. -/
theorem missing_categorization_graceful (bibContent : Option String) (kv : String × Entry)
    (hkv : kv ∈ (parse_bibtex_fallback bibContent).2) :
    parse_bib_entries_sty none = (true, []) ∧
    runPipeline none bibContent =
      generate_publications_page (parse_bibtex_fallback bibContent).2 [] ∧
    "### Other Publications" ∈ pageLines (parse_bibtex_fallback bibContent).2 [] ∧
    format_publication kv.2 "other" ∈ pageLines (parse_bibtex_fallback bibContent).2 [] := by
  obtain ⟨k, e⟩ := kv
  have hunc : e ∈ uncategorizedBucket (parse_bibtex_fallback bibContent).2 [] :=
    mem_uncategorizedBucket_of _ [] k e hkv rfl
  have hfacts := otherSection_facts (parse_bibtex_fallback bibContent).2 [] e hunc
  exact ⟨rfl, rfl,
    mem_pageLines_of_mem_otherSection _ [] _ hfacts.1,
    mem_pageLines_of_mem_otherSection _ [] _ hfacts.2⟩

/-- Witness for claim C7 at a concrete input. -/
theorem missing_categorization_graceful_witness :
    format_publication (⟨"misc", "m2022", 2022, [("year", "2022")]⟩ : Entry) "other" ∈
      pageLines (parse_bibtex_fallback (some c7Bib)).2 [] :=
  (missing_categorization_graceful (some c7Bib)
    ("m2022", ⟨"misc", "m2022", 2022, [("year", "2022")]⟩) (by decide)).2.2.2

/-- Claim C8 (confirmed): the pipeline is a pure function of the two input
file contents - the script iterates only insertion-ordered dicts, never
sets, and sorts deterministically - so two runs on equal (unchanged)
inputs produce byte-identical output text. -/
theorem pipeline_deterministic (sty1 bib1 sty2 bib2 : Option String)
    (hsty : sty1 = sty2) (hbib : bib1 = bib2) :
    runPipeline sty1 bib1 = runPipeline sty2 bib2 := by
  rw [hsty, hbib]

/-- Witness for claim C8 at a concrete input. -/
theorem pipeline_deterministic_witness :
    runPipeline none none = runPipeline none none :=
  pipeline_deterministic none none none none rfl rfl

/-- Claim C9 counterexample: with the same key in a 2023 record and then a
2020 record, the later record fails the year cutoff, so the mapping keeps
the Entry built from the earlier record - not, as the claim states, one
built from the last-occurring record. -/
theorem duplicate_key_counterexample :
    scanBibEntries (stripComments c9Bib) =
      [("article", "k", "\n  year = \x7b2023\x7d\n\x7d\n"),
        ("article", "k", "\n  year = \x7b2020\x7d\n\x7d\n")] ∧
    (parse_bibtex_fallback (some c9Bib)).2 =
      [("k", ⟨"article", "k", 2023, [("year", "2023")]⟩)] ∧
    recordEntry ("article", "k", "\n  year = \x7b2020\x7d\n\x7d\n") =
      ⟨"article", "k", 2020, [("year", "2020")]⟩ ∧
    (⟨"article", "k", 2023, [("year", "2023")]⟩ : Entry) ≠
      ⟨"article", "k", 2020, [("year", "2020")]⟩ := by
  decide

/-- Claim C9 (corrected): deduplication by overwriting applies among the
records passing the year cutoff: in both parsing modes, a key's Entry in
the result mapping is the one built from the last record for that key
whose parsed year is at least 2022, and the key is absent when no record
for it qualifies. -/
theorem duplicate_key_last_qualifying (rs : List (String × String × String))
    (es : List (List (String × String))) (key : String) :
    (fallbackEntries rs).lookup key =
      (lastMatch?
        (fun r => (recordEntry r).key == key && decide (2022 ≤ (recordEntry r).year))
        rs).map recordEntry ∧
    (robustEntries es).lookup key =
      (lastMatch?
        (fun en =>
          (robustRecordEntry en).key == key && decide (2022 ≤ (robustRecordEntry en).year))
        es).map robustRecordEntry := by
  constructor
  · have hstep : fallbackEntries rs =
        rs.foldl
          (fun acc r =>
            if 2022 ≤ (recordEntry r).year then
              dictInsert acc (recordEntry r).key (recordEntry r)
            else acc)
          [] := rfl
    rw [hstep, lookup_yearGatedBuild recordEntry key rs []]
    cases lastMatch?
        (fun r => (recordEntry r).key == key && decide (2022 ≤ (recordEntry r).year)) rs with
    | none => rfl
    | some r => rfl
  · have hstep : robustEntries es =
        es.foldl
          (fun acc en =>
            if 2022 ≤ (robustRecordEntry en).year then
              dictInsert acc (robustRecordEntry en).key (robustRecordEntry en)
            else acc)
          [] := rfl
    rw [hstep, lookup_yearGatedBuild robustRecordEntry key es []]
    cases lastMatch?
        (fun en =>
          (robustRecordEntry en).key == key && decide (2022 ≤ (robustRecordEntry en).year))
        es with
    | none => rfl
    | some en => rfl

/-- Claim C10 (confirmed): a PDF or DOI link is emitted whenever the url
or doi key is present in the field mapping, even with an empty value
(yielding the empty-target PDF link), whereas the venue segment is omitted
whenever the journal (for articles) or booktitle (for inproceedings,
inbook, incollection) value is empty after stripping. -/
theorem links_presence_venue_emptiness (fields : List (String × String)) (ty : String) :
    (∀ u : String, fields.lookup "url" = some u →
      ("[PDF](" ++ pyStrip u ++ ")") ∈ linksOf fields) ∧
    (∀ d : String, fields.lookup "doi" = some d →
      ("[DOI](https://doi.org/" ++ pyStrip d ++ ")") ∈ linksOf fields) ∧
    (fields.lookup "url" = some "" → "[PDF]()" ∈ linksOf fields) ∧
    (ty = "article" → pyStrip ((fields.lookup "journal").getD "") = "" →
      venueOf ty fields = []) ∧
    ((ty = "inproceedings" ∨ ty = "inbook" ∨ ty = "incollection") →
      pyStrip ((fields.lookup "booktitle").getD "") = "" →
      venueOf ty fields = []) := by
  refine ⟨?_, ?_, ?_, ?_, ?_⟩
  · intro u hu
    simp [linksOf, hu]
  · intro d hd
    simp [linksOf, hd]
  · intro hu
    simp [linksOf, hu, pyStrip]
  · intro hty hj
    subst hty
    simp [venueOf, hj]
  · rintro (hty | hty | hty) hb <;> subst hty <;> simp [venueOf, hb]

/-- Witness for claim C10 at a concrete input: an empty url value still
yields the empty-target PDF link, and an article with no journal field has
no venue segment. -/
theorem links_presence_venue_emptiness_witness :
    "[PDF]()" ∈ linksOf [("url", ""), ("doi", "")] ∧
    venueOf "article" [("url", ""), ("doi", "")] = [] := by
  have h := links_presence_venue_emptiness [("url", ""), ("doi", "")] "article"
  exact ⟨h.2.2.1 rfl, h.2.2.2.1 rfl rfl⟩

end PubGen
